import Mathlib

/-!
Shallow embedding of `lib/passport-facebook-authcode/strategy.js`
(the `FacebookAuthCodeStrategy` passport strategy).

JavaScript values that may be `undefined` are modelled as `Option`;
an optional string field of a request object is `Option String`, with
JavaScript truthiness (`undefined` and `""` are falsy) made explicit.
Callback-style asynchronous collaborators (the OAuth2 token exchange,
the authenticated GET, the verify callback, the asynchronous skip
predicate) are modelled as functions returning `Except`/tuples; the
strictly sequential continuation chain of the source collapses to
ordinary function composition.  Each operation additionally returns the
list of collaborator calls it performed, so that claims of the form
"no fetch occurs" / "verification is never invoked" are statable.
-/

set_option autoImplicit false

namespace FacebookAuthCode

/-- Truthiness of a JavaScript value that is either a string or `undefined`:
`undefined` and the empty string are falsy, every other string is truthy. -/
def truthy : Option String → Bool
  | none => false
  | some s => s ≠ ""

/-- Errors circulating through the strategy: the wrapping
`InternalOAuthError('failed to fetch user profile', err)` built in
`userProfile`, a `JSON.parse` failure, and opaque errors produced by
external collaborators (transport errors, verify-callback errors,
skip-predicate errors). -/
inductive Err where
  | internalOAuthError (message : String) (cause : Err)
  | parseError (message : String)
  | external (tag : String)
deriving Repr, DecidableEq

/-- Opaque JavaScript values used for the `user` / `info` / exchange-metadata
positions: enough structure to express truthiness and the concrete scenarios
of the specification. -/
inductive Val where
  | undef
  | jsNull
  | bool (b : Bool)
  | num (n : Int)
  | str (s : String)
  | err (e : Err)
deriving Repr, DecidableEq

/-- JavaScript truthiness on `Val`. -/
def Val.truthy : Val → Bool
  | .undef => false
  | .jsNull => false
  | .bool b => b
  | .num n => n ≠ 0
  | .str s => s ≠ ""
  | .err _ => true

/-- The parsed JSON body of the identity endpoint: the fields the mapping in
`userProfile` reads (`id`, `name`, `family_name`, `given_name`, `email`),
each possibly absent. -/
structure Json where
  id : Option String
  name : Option String
  family_name : Option String
  given_name : Option String
  email : Option String
deriving Repr, DecidableEq

/-- The `name` sub-object of the normalized profile. -/
structure NameParts where
  familyName : Option String
  givenName : Option String
deriving Repr, DecidableEq

/-- One entry of the `emails` array of the normalized profile. -/
structure Email where
  value : Option String
deriving Repr, DecidableEq

/-- The normalized profile constructed by `userProfile`.  `raw` and `json`
model the `_raw` / `_json` properties carrying the response body and the
parsed JSON verbatim. -/
structure Profile where
  provider : String
  id : Option String
  displayName : Option String
  name : NameParts
  emails : List Email
  raw : String
  json : Json
deriving Repr, DecidableEq

/-- Parameters object passed to `getOAuthAccessToken` by `_exchangeAuthCode`:
`{'grant_type': 'authorization_code', 'redirect_uri': redirectUri}`. -/
structure TokenParams where
  grant_type : String
  redirect_uri : Option String
deriving Repr, DecidableEq

/-- Query object of the inbound request: the fields read by `authenticate`
(`error`, `code`, `redirectUri`). -/
structure Query where
  error : Option String
  code : Option String
  redirectUri : Option String
deriving Repr, DecidableEq

/-- Body object of the inbound request: the fields read by `authenticate`
(`code`, `redirectUri`). -/
structure Body where
  code : Option String
  redirectUri : Option String
deriving Repr, DecidableEq

/-- The inbound request.  Both `query` and `body` may be absent
(`undefined`); `authenticate` guards `body` but dereferences `query`
unguarded on the extraction lines. -/
structure Request where
  query : Option Query
  body : Option Body
deriving Repr, DecidableEq

/-- A record of one collaborator invocation, used to state which external
calls an attempt performs. -/
inductive Call where
  | exchange (code : Option String) (params : TokenParams)
  | fetch (url : String) (accessToken : String)
  | skipAsync (accessToken : String)
  | verifyCall (accessToken : String) (refreshToken : String) (profile : Option Profile)
deriving Repr, DecidableEq

/-- The terminal signal of one authentication attempt: `success(user, info)`,
`fail(info)` (`fail()` with no argument is `fail Val.undef`), `error(err)`,
or an uncaught exception escaping `authenticate` (`thrown`). -/
inductive Outcome where
  | success (user : Val) (info : Val)
  | fail (info : Val)
  | error (e : Err)
  | thrown (message : String)
deriving Repr, DecidableEq

/-- True exactly on `Outcome.fail`. -/
def Outcome.isFail : Outcome → Bool
  | .fail _ => true
  | _ => false

/-- True exactly on `Outcome.error`. -/
def Outcome.isError : Outcome → Bool
  | .error _ => true
  | _ => false

/-- The configured `skipUserProfile` setting, the three shapes the source
distinguishes: a plain boolean, a function of declared arity at most one
(invoked with no arguments), and a function of declared arity above one
(invoked with the access token and a completion callback, modelled as a
function from the token to `Except` of the callback's `(err, skip)`). -/
inductive SkipSetting where
  | flag (b : Bool)
  | sync (f : Unit → Bool)
  | async (f : String → Except Err Bool)

/-- Construction-time configuration read by `authenticate` /
`_loadUserProfile`: `passReqToCallback` and `skipUserProfile`. -/
structure Config where
  passReqToCallback : Bool
  skipUserProfile : SkipSetting

/-- The external collaborators of one attempt:
`_oauth2.getOAuthAccessToken` (token exchange), `_oauth2.get`
(authenticated GET of the identity endpoint), `JSON.parse` (platform
builtin), and the application-supplied `_verify` callback (receiving
`some req` as its prepended argument exactly when `passReqToCallback`
is set, and completing with `(err, user, info)`). -/
structure Env where
  getOAuthAccessToken : Option String → TokenParams → Except Err (String × String × Val)
  oauth2get : String → String → Except Err String
  jsonParse : String → Except Err Json
  verify : Option Request → String → String → Option Profile → Option Err × Val × Val

/-- The fixed identity endpoint URL of `userProfile`. -/
def profileURL : String := "https://graph.facebook.com/v2.2/me"

/-- Embedding of `FacebookAuthCodeStrategy.prototype.userProfile`: perform
the authenticated GET against `profileURL`; on transport error wrap it in
`InternalOAuthError('failed to fetch user profile', err)`; otherwise parse
the body and build the normalized profile, any parse exception becoming the
callback's error.  Returns the result together with the calls performed. -/
def userProfile (env : Env) (accessToken : String) :
    Except Err Profile × List Call :=
  let calls := [Call.fetch profileURL accessToken]
  match env.oauth2get profileURL accessToken with
  | .error err => (.error (.internalOAuthError "failed to fetch user profile" err), calls)
  | .ok body =>
    match env.jsonParse body with
    | .error e => (.error e, calls)
    | .ok json =>
      (.ok { provider := "facebook"
             id := json.id
             displayName := json.name
             name := { familyName := json.family_name, givenName := json.given_name }
             emails := [{ value := json.email }]
             raw := body
             json := json }, calls)

/-- Embedding of `FacebookAuthCodeStrategy.prototype._loadUserProfile`:
with an async skip predicate (declared arity above one) invoke it with the
access token, propagate its error, otherwise load or skip by its boolean;
with a sync predicate or a plain boolean decide synchronously.  Skipping
completes with `done(null)`, i.e. an absent profile. -/
def loadUserProfile (cfg : Config) (env : Env) (accessToken : String) :
    Except Err (Option Profile) × List Call :=
  let loadIt : Except Err (Option Profile) × List Call :=
    let r := userProfile env accessToken
    (r.1.map some, r.2)
  let skipIt : Except Err (Option Profile) × List Call := (.ok none, [])
  match cfg.skipUserProfile with
  | .async f =>
    match f accessToken with
    | .error err => (.error err, [Call.skipAsync accessToken])
    | .ok skip =>
      if !skip then (loadIt.1, Call.skipAsync accessToken :: loadIt.2)
      else (skipIt.1, Call.skipAsync accessToken :: skipIt.2)
  | .sync f =>
    if !(f ()) then loadIt else skipIt
  | .flag b =>
    if !b then loadIt else skipIt

/-- Embedding of `FacebookAuthCodeStrategy.prototype._exchangeAuthCode`:
build `{'grant_type': 'authorization_code', 'redirect_uri': redirectUri}`
and invoke `getOAuthAccessToken(authCode, params, done)`.  Returns the
collaborator's completion and the recorded call. -/
def exchangeAuthCode (env : Env) (authCode redirectUri : Option String) :
    Except Err (String × String × Val) × Call :=
  let params : TokenParams := { grant_type := "authorization_code", redirect_uri := redirectUri }
  (env.getOAuthAccessToken authCode params, Call.exchange authCode params)

/-- The guard `req.query && req.query.error` of `authenticate`. -/
def hasQueryError (req : Request) : Bool :=
  match req.query with
  | some q => truthy q.error
  | none => false

/-- One `body.field || query.field` extraction of `authenticate`.  `||`
short-circuits: when the body field is truthy the query object is never
dereferenced; otherwise reading the field of an absent query object throws
a `TypeError` (modelled as `Except.error`). -/
def extractField (bodyField : Option String) (query : Option Query)
    (queryField : Query → Option String) : Except String (Option String) :=
  if truthy bodyField then .ok bodyField
  else
    match query with
    | none => .error "TypeError: Cannot read property of undefined"
    | some q => .ok (queryField q)

/-- Embedding of the `verified` completion callback inside `authenticate`:
`err` truthy signals `error(err)`; otherwise a falsy `user` signals
`fail(info)`; otherwise `success(user, info)`. -/
def verified : Option Err × Val × Val → Outcome
  | (some err, _, _) => .error err
  | (none, user, info) => if !user.truthy then .fail info else .success user info

/-- Embedding of `FacebookAuthCodeStrategy.prototype.authenticate`:
fail on a query error indicator; fail on a missing body; extract
`authCode` and `redirectUri` (body field `||` query field, both extractions
performed before the code check); fail on a falsy `authCode`; exchange the
code, failing with the exchange error; load the profile, failing with the
load error; invoke `_verify` (with the request prepended when
`passReqToCallback`) and map its completion through `verified`.  Returns
the terminal signal and the collaborator calls performed. -/
def authenticate (env : Env) (cfg : Config) (req : Request) : Outcome × List Call :=
  if hasQueryError req then (.fail .undef, [])
  else
    match req.body with
    | none => (.fail .undef, [])
    | some body =>
      match extractField body.code req.query Query.code with
      | .error msg => (.thrown msg, [])
      | .ok authCode =>
        match extractField body.redirectUri req.query Query.redirectUri with
        | .error msg => (.thrown msg, [])
        | .ok redirectUri =>
          if !truthy authCode then (.fail .undef, [])
          else
            let ex := exchangeAuthCode env authCode redirectUri
            match ex.1 with
            | .error err => (.fail (.err err), [ex.2])
            | .ok (accessToken, refreshToken, _resultsJson) =>
              let pr := loadUserProfile cfg env accessToken
              match pr.1 with
              | .error err => (.fail (.err err), ex.2 :: pr.2)
              | .ok profile =>
                let r := env.verify (if cfg.passReqToCallback then some req else none)
                  accessToken refreshToken profile
                (verified r, ex.2 :: pr.2 ++ [Call.verifyCall accessToken refreshToken profile])

/-- The skip setting decides to load the profile: a false boolean, a sync
predicate returning false, or an async predicate completing with
`(null, false)`. -/
def skipDecidesLoad : SkipSetting → String → Prop
  | .flag b, _ => b = false
  | .sync f, _ => f () = false
  | .async f, accessToken => f accessToken = .ok false

/-- The skip setting decides to skip the profile: a true boolean, a sync
predicate returning true, or an async predicate completing with
`(null, true)`. -/
def skipSaysTrue : SkipSetting → String → Prop
  | .flag b, _ => b = true
  | .sync f, _ => f () = true
  | .async f, accessToken => f accessToken = .ok true

/-- A request with a query error indicator, an absent body and an error-free
query, used to instantiate the early-fail scenarios. -/
def reqQueryError : Request :=
  { query := some { error := some "access_denied", code := none, redirectUri := none }
    body := some { code := some "authcode", redirectUri := none } }

/-- A request with a body but no query object, and no code anywhere: the
request of the unguarded-dereference scenario. -/
def reqNoQuery : Request :=
  { query := none, body := some { code := none, redirectUri := none } }

/-- A well-formed request: error-free query, body carrying a code and a
redirect URI. -/
def reqOk : Request :=
  { query := some { error := none, code := none, redirectUri := none }
    body := some { code := some "authcode", redirectUri := some "https://app.example/cb" } }

/-- The default configuration: `passReqToCallback` unset, profile not
skipped. -/
def cfgDefault : Config :=
  { passReqToCallback := false, skipUserProfile := .flag false }

/-- An environment whose collaborators are never consulted meaningfully;
used for scenarios that terminate before any collaborator call. -/
def envInert : Env :=
  { getOAuthAccessToken := fun _ _ => .error (.external "unused")
    oauth2get := fun _ _ => .error (.external "unused")
    jsonParse := fun _ => .error (.parseError "unused")
    verify := fun _ _ _ _ => (none, .undef, .undef) }

/-- Reading a field of a present query object never throws and yields the
body field when truthy, the query field otherwise. -/
theorem extractField_some (bodyField : Option String) (q : Query)
    (queryField : Query → Option String) :
    extractField bodyField (some q) queryField =
      .ok (if truthy bodyField then bodyField else queryField q) := by
  unfold extractField
  by_cases h : truthy bodyField <;> simp [h]

/-- Stage lemma: a validated, extracted request whose token exchange fails
terminates with `fail` carrying the exchange error, after the single
exchange call. -/
theorem authenticate_exchange_error (env : Env) (cfg : Config) (req : Request)
    (body : Body) (authCode redirectUri : Option String) (err : Err)
    (hqe : hasQueryError req = false)
    (hb : req.body = some body)
    (hcode : extractField body.code req.query Query.code = .ok authCode)
    (huri : extractField body.redirectUri req.query Query.redirectUri = .ok redirectUri)
    (ht : truthy authCode = true)
    (hex : env.getOAuthAccessToken authCode
        { grant_type := "authorization_code", redirect_uri := redirectUri } = .error err) :
    authenticate env cfg req =
      (.fail (.err err),
       [Call.exchange authCode { grant_type := "authorization_code", redirect_uri := redirectUri }]) := by
  simp only [authenticate, hqe, hb, hcode, huri, ht, exchangeAuthCode, hex, Bool.not_true,
    Bool.false_eq_true, if_false]

/-- Stage lemma: a validated, extracted request whose token exchange
succeeds but whose profile load fails terminates with `fail` carrying the
load error, without invoking the verify callback. -/
theorem authenticate_load_error (env : Env) (cfg : Config) (req : Request)
    (body : Body) (authCode redirectUri : Option String)
    (accessToken refreshToken : String) (meta : Val) (e : Err) (cs : List Call)
    (hqe : hasQueryError req = false)
    (hb : req.body = some body)
    (hcode : extractField body.code req.query Query.code = .ok authCode)
    (huri : extractField body.redirectUri req.query Query.redirectUri = .ok redirectUri)
    (ht : truthy authCode = true)
    (hex : env.getOAuthAccessToken authCode
        { grant_type := "authorization_code", redirect_uri := redirectUri } =
        .ok (accessToken, refreshToken, meta))
    (hload : loadUserProfile cfg env accessToken = (.error e, cs)) :
    authenticate env cfg req =
      (.fail (.err e),
       Call.exchange authCode { grant_type := "authorization_code", redirect_uri := redirectUri }
         :: cs) := by
  simp only [authenticate, hqe, hb, hcode, huri, ht, exchangeAuthCode, hex, hload, Bool.not_true,
    Bool.false_eq_true, if_false]

/-- Stage lemma: a validated, extracted request whose token exchange and
profile load both succeed invokes the verify callback and maps its
completion through `verified`. -/
theorem authenticate_verify (env : Env) (cfg : Config) (req : Request)
    (body : Body) (authCode redirectUri : Option String)
    (accessToken refreshToken : String) (meta : Val) (profile : Option Profile) (cs : List Call)
    (hqe : hasQueryError req = false)
    (hb : req.body = some body)
    (hcode : extractField body.code req.query Query.code = .ok authCode)
    (huri : extractField body.redirectUri req.query Query.redirectUri = .ok redirectUri)
    (ht : truthy authCode = true)
    (hex : env.getOAuthAccessToken authCode
        { grant_type := "authorization_code", redirect_uri := redirectUri } =
        .ok (accessToken, refreshToken, meta))
    (hload : loadUserProfile cfg env accessToken = (.ok profile, cs)) :
    authenticate env cfg req =
      (verified (env.verify (if cfg.passReqToCallback then some req else none)
          accessToken refreshToken profile),
       Call.exchange authCode { grant_type := "authorization_code", redirect_uri := redirectUri }
         :: cs ++ [Call.verifyCall accessToken refreshToken profile]) := by
  simp only [authenticate, hqe, hb, hcode, huri, ht, exchangeAuthCode, hex, hload, Bool.not_true,
    Bool.false_eq_true, if_false]

/-- The profile fetch performs exactly one collaborator call, the
authenticated GET of the identity endpoint. -/
theorem userProfile_calls (env : Env) (tok : String) :
    (userProfile env tok).2 = [Call.fetch profileURL tok] := by
  rcases hg : env.oauth2get profileURL tok with e | body
  · simp [userProfile, hg]
  · rcases hp : env.jsonParse body with e | json <;> simp [userProfile, hg, hp]

/-- The possible call traces of `_loadUserProfile`: nothing, a fetch, an
async skip check, or an async skip check followed by a fetch. -/
theorem loadUserProfile_calls (cfg : Config) (env : Env) (tok : String) :
    (loadUserProfile cfg env tok).2 = [] ∨
    (loadUserProfile cfg env tok).2 = [Call.fetch profileURL tok] ∨
    (loadUserProfile cfg env tok).2 = [Call.skipAsync tok] ∨
    (loadUserProfile cfg env tok).2 = [Call.skipAsync tok, Call.fetch profileURL tok] := by
  rcases hs : cfg.skipUserProfile with b | f | f
  · cases b <;> simp [loadUserProfile, hs, userProfile_calls]
  · cases hf : f () <;> simp [loadUserProfile, hs, hf, userProfile_calls]
  · rcases hf : f tok with e | skip
    · simp [loadUserProfile, hs, hf]
    · cases skip <;> simp [loadUserProfile, hs, hf, userProfile_calls]

/-- `_loadUserProfile` never invokes the verify callback. -/
theorem loadUserProfile_no_verify (cfg : Config) (env : Env) (tok : String)
    (t r : String) (p : Option Profile) :
    Call.verifyCall t r p ∉ (loadUserProfile cfg env tok).2 := by
  rcases loadUserProfile_calls cfg env tok with h | h | h | h <;> rw [h] <;> simp

/-- When the skip setting decides to load, `_loadUserProfile` completes
exactly as `userProfile` does (its result wrapped in `some`). -/
theorem loadUserProfile_loads (cfg : Config) (env : Env) (tok : String)
    (h : skipDecidesLoad cfg.skipUserProfile tok) :
    (loadUserProfile cfg env tok).1 = (userProfile env tok).1.map some := by
  rcases hs : cfg.skipUserProfile with b | f | f <;> rw [hs] at h <;>
    simp only [skipDecidesLoad] at h <;> simp [loadUserProfile, hs, h]

/-- When the skip setting decides to skip, `_loadUserProfile` completes with
an absent profile and performs no fetch. -/
theorem loadUserProfile_skips (cfg : Config) (env : Env) (tok : String)
    (h : skipSaysTrue cfg.skipUserProfile tok) :
    (loadUserProfile cfg env tok).1 = .ok none ∧
    ∀ url t, Call.fetch url t ∉ (loadUserProfile cfg env tok).2 := by
  rcases hs : cfg.skipUserProfile with b | f | f <;> rw [hs] at h <;>
    simp only [skipSaysTrue] at h <;> simp [loadUserProfile, hs, h]

/-- With an async skip predicate the skip check is always the first call
`_loadUserProfile` performs, and it receives the access token. -/
theorem loadUserProfile_async_head (cfg : Config) (env : Env) (tok : String)
    (f : String → Except Err Bool) (h : cfg.skipUserProfile = .async f) :
    (loadUserProfile cfg env tok).2.head? = some (Call.skipAsync tok) := by
  rcases hf : f tok with e | skip
  · simp [loadUserProfile, h, hf]
  · cases skip <;> simp [loadUserProfile, h, hf]

/-- An async skip predicate completing with an error makes
`_loadUserProfile` complete with that error, after the skip check alone. -/
theorem loadUserProfile_async_error (cfg : Config) (env : Env) (tok : String)
    (f : String → Except Err Bool) (e : Err)
    (h : cfg.skipUserProfile = .async f) (he : f tok = .error e) :
    loadUserProfile cfg env tok = (.error e, [Call.skipAsync tok]) := by
  simp [loadUserProfile, h, he]

/-- Every profile `userProfile` constructs has provider `facebook` and
mirrors the parsed payload's `id` verbatim. -/
theorem userProfile_shape (env : Env) (tok : String) (prof : Profile)
    (h : (userProfile env tok).1 = .ok prof) :
    prof.provider = "facebook" ∧ prof.id = prof.json.id := by
  rcases hg : env.oauth2get profileURL tok with e | body
  · simp [userProfile, hg] at h
  · rcases hp : env.jsonParse body with e | json
    · simp [userProfile, hg, hp] at h
    · simp only [userProfile, hg, hp, Except.ok.injEq] at h
      subst h
      exact ⟨rfl, rfl⟩

/-- Every present profile `_loadUserProfile` completes with has provider
`facebook` and mirrors the parsed payload's `id` verbatim. -/
theorem map_some_ok {α : Type} (r : Except Err α) (x : α)
    (h : r.map some = .ok (some x)) : r = .ok x := by
  rcases r with e | y
  · simp [Except.map] at h
  · simp only [Except.map, Except.ok.injEq, Option.some.injEq] at h
    rw [h]

/-- Every present profile `_loadUserProfile` completes with comes from
`userProfile`. -/
theorem loadUserProfile_ok_some (cfg : Config) (env : Env) (tok : String) (prof : Profile)
    (h : (loadUserProfile cfg env tok).1 = .ok (some prof)) :
    (userProfile env tok).1 = .ok prof := by
  rcases hs : cfg.skipUserProfile with b | f | f
  · cases b
    · simp only [loadUserProfile, hs, Bool.not_false, if_true] at h
      exact map_some_ok _ _ h
    · simp [loadUserProfile, hs] at h
  · cases hf : f ()
    · simp only [loadUserProfile, hs, hf, Bool.not_false, if_true] at h
      exact map_some_ok _ _ h
    · simp [loadUserProfile, hs, hf] at h
  · rcases hf : f tok with e | skip
    · simp [loadUserProfile, hs, hf] at h
    · cases skip
      · simp only [loadUserProfile, hs, hf, Bool.not_false, if_true] at h
        exact map_some_ok _ _ h
      · simp [loadUserProfile, hs, hf] at h

/-- Every present profile `_loadUserProfile` completes with has provider
`facebook` and mirrors the parsed payload's `id` verbatim. -/
theorem loadUserProfile_shape (cfg : Config) (env : Env) (tok : String) (prof : Profile)
    (h : (loadUserProfile cfg env tok).1 = .ok (some prof)) :
    prof.provider = "facebook" ∧ prof.id = prof.json.id :=
  userProfile_shape env tok prof (loadUserProfile_ok_some cfg env tok prof h)

/-- Stage lemma: a validated request whose extracted code is falsy fails
with no collaborator call. -/
theorem authenticate_no_code (env : Env) (cfg : Config) (req : Request)
    (body : Body) (authCode redirectUri : Option String)
    (hqe : hasQueryError req = false)
    (hb : req.body = some body)
    (hcode : extractField body.code req.query Query.code = .ok authCode)
    (huri : extractField body.redirectUri req.query Query.redirectUri = .ok redirectUri)
    (ht : truthy authCode = false) :
    authenticate env cfg req = (.fail .undef, []) := by
  simp only [authenticate, hqe, hb, hcode, huri, ht, Bool.not_false, if_true,
    Bool.false_eq_true, if_false]

/-- Stage lemma: once a validated request reaches the exchange, the exchange
call — with the extracted code, the extracted redirect URI and grant type
`authorization_code` — is the first collaborator call of the attempt. -/
theorem authenticate_trace_head (env : Env) (cfg : Config) (req : Request)
    (body : Body) (authCode redirectUri : Option String)
    (hqe : hasQueryError req = false)
    (hb : req.body = some body)
    (hcode : extractField body.code req.query Query.code = .ok authCode)
    (huri : extractField body.redirectUri req.query Query.redirectUri = .ok redirectUri)
    (ht : truthy authCode = true) :
    (authenticate env cfg req).2.head? =
      some (Call.exchange authCode
        { grant_type := "authorization_code", redirect_uri := redirectUri }) := by
  rcases hex : env.getOAuthAccessToken authCode
      { grant_type := "authorization_code", redirect_uri := redirectUri } with err | ⟨accessToken, refreshToken, meta⟩
  · rw [authenticate_exchange_error env cfg req body authCode redirectUri err hqe hb hcode huri ht hex]
    rfl
  · rcases hL : loadUserProfile cfg env accessToken with ⟨r, cs⟩
    cases r with
    | error e =>
      rw [authenticate_load_error env cfg req body authCode redirectUri accessToken refreshToken
        meta e cs hqe hb hcode huri ht hex hL]
      rfl
    | ok profile =>
      rw [authenticate_verify env cfg req body authCode redirectUri accessToken refreshToken
        meta profile cs hqe hb hcode huri ht hex hL]
      rfl

/-- The identity-endpoint response body of the displayName/email mapping
scenario. -/
def janeBody : String := "\x7b\"id\":\"42\",\"name\":\"Jane Doe\",\"email\":\"jane@example.com\"\x7d"

/-- The parse of `janeBody`: `id`, `name` and `email` present, the name
decomposition fields and everything else absent. -/
def janeJson : Json :=
  { id := some "42", name := some "Jane Doe", family_name := none, given_name := none,
    email := some "jane@example.com" }

/-- `JSON.parse` — a platform builtin, not code of this repository — pinned
to the single body of the scenario. -/
def janeParse (s : String) : Except Err Json :=
  if s = janeBody then .ok janeJson else .error (.parseError "Unexpected token")

/-- An environment whose identity endpoint returns `janeBody`. -/
def envJane : Env :=
  { getOAuthAccessToken := fun _ _ => .ok ("tokA", "tokR", .undef)
    oauth2get := fun _ _ => .ok janeBody
    jsonParse := janeParse
    verify := fun _ _ _ _ => (none, .str "user", .undef) }

/-- C3: the `verified` completion callback maps `(err, user, info)`: a
present `err` signals error(err); an absent `err` with a falsy `user`
signals fail(info); otherwise success(user, info). -/
theorem verified_maps_completion (e : Err) (user info : Val) :
    verified (some e, user, info) = .error e ∧
    verified (none, user, info) =
      (if user.truthy then .success user info else .fail info) := by
  refine ⟨rfl, ?_⟩
  cases h : user.truthy <;> simp [verified, h]

/-- C5: for the identity-endpoint response body
`{"id":"42","name":"Jane Doe","email":"jane@example.com"}` the profile
normalizer produces exactly the profile with provider `facebook`, id `42`,
displayName `Jane Doe`, absent givenName/familyName, the single email
entry `jane@example.com`, and the raw body and parsed JSON attached
verbatim. -/
theorem userProfile_jane_mapping (accessToken : String) :
    (userProfile envJane accessToken).1 =
      .ok { provider := "facebook", id := some "42", displayName := some "Jane Doe",
            name := { familyName := none, givenName := none },
            emails := [{ value := some "jane@example.com" }],
            raw := janeBody, json := janeJson } := by
  simp [userProfile, envJane, janeParse, janeJson]

/-- C7: a request whose query carries an error indicator, and likewise a
request lacking a body, fails immediately with no collaborator call — so
neither the token exchange nor the profile fetch is invoked. -/
theorem authenticate_early_fail (env : Env) (cfg : Config) (req : Request)
    (h : hasQueryError req = true ∨ req.body = none) :
    authenticate env cfg req = (.fail .undef, []) := by
  rcases h with h | h
  · simp [authenticate, h]
  · cases hq : hasQueryError req <;> simp [authenticate, h, hq]

/-- Witness for the early-fail theorem at a concrete request carrying a
query error indicator. -/
theorem authenticate_early_fail_witness :
    authenticate envInert cfgDefault reqQueryError = (.fail .undef, []) :=
  authenticate_early_fail envInert cfgDefault reqQueryError (Or.inl (by decide))

/-- C10: a request with a body lacking a code and an absent query object
makes `authenticate` throw a TypeError while extracting the code (the
query object is dereferenced unguarded) instead of signalling fail. -/
theorem authenticate_throws_on_absent_query :
    authenticate envInert cfgDefault reqNoQuery =
      (.thrown "TypeError: Cannot read property of undefined", []) ∧
    (authenticate envInert cfgDefault reqNoQuery).1.isFail = false := by
  constructor <;> rfl

/-- An environment whose token exchange succeeds and whose identity-endpoint
GET fails in transport. -/
def envFetchFail : Env :=
  { getOAuthAccessToken := fun _ _ => .ok ("tokA", "tokR", .undef)
    oauth2get := fun _ _ => .error (.external "ECONNRESET")
    jsonParse := fun _ => .error (.parseError "unused")
    verify := fun _ _ _ _ => (none, .str "user", .undef) }

/-- C1 counterexample: with the profile fetch failing in transport on an
otherwise well-formed attempt, the attempt terminates with fail — carrying
the wrapped fetch failure — and not with error. -/
theorem authenticate_fetchFailure_not_error_cx :
    authenticate envFetchFail cfgDefault reqOk =
      (.fail (.err (.internalOAuthError "failed to fetch user profile" (.external "ECONNRESET"))),
       [Call.exchange (some "authcode")
          { grant_type := "authorization_code", redirect_uri := some "https://app.example/cb" },
        Call.fetch profileURL "tokA"]) ∧
    (authenticate envFetchFail cfgDefault reqOk).1.isError = false := by
  constructor <;> rfl

/-- C1 (amended): when the profile normalizer reports a failure (transport
or parse) on an attempt that reached it, the flow controller signals fail
— not error — carrying that failure, and the verify callback is never
invoked for the attempt. -/
theorem authenticate_profileFailure_signals_fail (env : Env) (cfg : Config) (req : Request)
    (body : Body) (authCode redirectUri : Option String)
    (accessToken refreshToken : String) (meta : Val) (e : Err)
    (hqe : hasQueryError req = false)
    (hb : req.body = some body)
    (hcode : extractField body.code req.query Query.code = .ok authCode)
    (huri : extractField body.redirectUri req.query Query.redirectUri = .ok redirectUri)
    (ht : truthy authCode = true)
    (hex : env.getOAuthAccessToken authCode
        { grant_type := "authorization_code", redirect_uri := redirectUri } =
        .ok (accessToken, refreshToken, meta))
    (hskip : skipDecidesLoad cfg.skipUserProfile accessToken)
    (hup : (userProfile env accessToken).1 = .error e) :
    (authenticate env cfg req).1 = .fail (.err e) ∧
    (authenticate env cfg req).1.isError = false ∧
    ∀ t r p, Call.verifyCall t r p ∉ (authenticate env cfg req).2 := by
  rcases hL : loadUserProfile cfg env accessToken with ⟨r, cs⟩
  have h1 : r = Except.error e := by
    have h2 := loadUserProfile_loads cfg env accessToken hskip
    rw [hL, hup] at h2
    exact h2
  subst h1
  rw [authenticate_load_error env cfg req body authCode redirectUri accessToken refreshToken
    meta e cs hqe hb hcode huri ht hex hL]
  refine ⟨rfl, rfl, ?_⟩
  intro t r' p
  simp only [List.mem_cons]
  rintro (hc | hc)
  · exact Call.noConfusion hc
  · have hnv := loadUserProfile_no_verify cfg env accessToken t r' p
    rw [hL] at hnv
    exact hnv hc

/-- Witness for the amended profile-failure theorem at the transport-failure
environment. -/
theorem authenticate_profileFailure_signals_fail_witness :
    (authenticate envFetchFail cfgDefault reqOk).1 =
      .fail (.err (.internalOAuthError "failed to fetch user profile" (.external "ECONNRESET"))) :=
  (authenticate_profileFailure_signals_fail envFetchFail cfgDefault reqOk
    { code := some "authcode", redirectUri := some "https://app.example/cb" }
    (some "authcode") (some "https://app.example/cb") "tokA" "tokR" .undef
    (.internalOAuthError "failed to fetch user profile" (.external "ECONNRESET"))
    rfl rfl rfl rfl rfl rfl rfl rfl).1

/-- An environment whose token exchange succeeds; the collaborators beyond
it are never consulted. -/
def envSkipAsyncFail : Env :=
  { getOAuthAccessToken := fun _ _ => .ok ("tokA", "tokR", .undef)
    oauth2get := fun _ _ => .error (.external "unused")
    jsonParse := fun _ => .error (.parseError "unused")
    verify := fun _ _ _ _ => (none, .undef, .undef) }

/-- A configuration with a two-argument skip predicate that completes with
an error. -/
def cfgSkipAsyncFail : Config :=
  { passReqToCallback := false
    skipUserProfile := .async fun _ => .error (.external "skip-check-failed") }

/-- C2 counterexample: with a two-argument skip predicate completing with an
error, the attempt terminates with fail — carrying the predicate's error —
and not with error. -/
theorem authenticate_asyncSkipFailure_not_error_cx :
    authenticate envSkipAsyncFail cfgSkipAsyncFail reqOk =
      (.fail (.err (.external "skip-check-failed")),
       [Call.exchange (some "authcode")
          { grant_type := "authorization_code", redirect_uri := some "https://app.example/cb" },
        Call.skipAsync "tokA"]) ∧
    (authenticate envSkipAsyncFail cfgSkipAsyncFail reqOk).1.isError = false := by
  constructor <;> rfl

/-- C2 (amended): with a two-argument skip predicate the flow controller
invokes it with the access token (the skip check is recorded among the
attempt's collaborator calls), and when the predicate completes with an
error the attempt's outcome is fail carrying that error, not error. -/
theorem authenticate_asyncSkip_contract (env : Env) (cfg : Config) (req : Request)
    (body : Body) (authCode redirectUri : Option String)
    (accessToken refreshToken : String) (meta : Val)
    (f : String → Except Err Bool)
    (hqe : hasQueryError req = false)
    (hb : req.body = some body)
    (hcode : extractField body.code req.query Query.code = .ok authCode)
    (huri : extractField body.redirectUri req.query Query.redirectUri = .ok redirectUri)
    (ht : truthy authCode = true)
    (hex : env.getOAuthAccessToken authCode
        { grant_type := "authorization_code", redirect_uri := redirectUri } =
        .ok (accessToken, refreshToken, meta))
    (hskip : cfg.skipUserProfile = .async f) :
    Call.skipAsync accessToken ∈ (authenticate env cfg req).2 ∧
    ∀ e, f accessToken = .error e →
      (authenticate env cfg req).1 = .fail (.err e) ∧
      (authenticate env cfg req).1.isError = false := by
  constructor
  · rcases hL : loadUserProfile cfg env accessToken with ⟨r, cs⟩
    have hhead : cs.head? = some (Call.skipAsync accessToken) := by
      have hh := loadUserProfile_async_head cfg env accessToken f hskip
      rw [hL] at hh
      exact hh
    rcases cs with _ | ⟨c, cs'⟩
    · simp at hhead
    · simp only [List.head?, Option.some.injEq] at hhead
      cases r with
      | error e =>
        rw [authenticate_load_error env cfg req body authCode redirectUri accessToken
          refreshToken meta e (c :: cs') hqe hb hcode huri ht hex hL]
        simp [hhead]
      | ok profile =>
        rw [authenticate_verify env cfg req body authCode redirectUri accessToken
          refreshToken meta profile (c :: cs') hqe hb hcode huri ht hex hL]
        simp [hhead]
  · intro e he
    have hL := loadUserProfile_async_error cfg env accessToken f e hskip he
    rw [authenticate_load_error env cfg req body authCode redirectUri accessToken refreshToken
      meta e [Call.skipAsync accessToken] hqe hb hcode huri ht hex hL]
    exact ⟨rfl, rfl⟩

/-- Witness for the async-skip contract theorem at the failing-predicate
configuration. -/
theorem authenticate_asyncSkip_contract_witness :
    Call.skipAsync "tokA" ∈ (authenticate envSkipAsyncFail cfgSkipAsyncFail reqOk).2 ∧
    (authenticate envSkipAsyncFail cfgSkipAsyncFail reqOk).1 =
      .fail (.err (.external "skip-check-failed")) := by
  have h := authenticate_asyncSkip_contract envSkipAsyncFail cfgSkipAsyncFail reqOk
    { code := some "authcode", redirectUri := some "https://app.example/cb" }
    (some "authcode") (some "https://app.example/cb") "tokA" "tokR" .undef
    (fun _ => .error (.external "skip-check-failed"))
    rfl rfl rfl rfl rfl rfl rfl
  exact ⟨h.1, (h.2 (.external "skip-check-failed") rfl).1⟩

/-- An environment whose token exchange fails. -/
def envExchangeFail : Env :=
  { getOAuthAccessToken := fun _ _ => .error (.external "invalid_grant")
    oauth2get := fun _ _ => .error (.external "unused")
    jsonParse := fun _ => .error (.parseError "unused")
    verify := fun _ _ _ _ => (none, .undef, .undef) }

/-- C4: once a request passes validation and extraction, the token exchange
is invoked with the extracted code, the extracted redirect URI and the
fixed grant type `authorization_code` (it is the attempt's first
collaborator call), and when the exchange fails the attempt's outcome is
fail — not error — carrying the exchange error as the info argument. -/
theorem authenticate_exchange_contract (env : Env) (cfg : Config) (req : Request)
    (body : Body) (authCode redirectUri : Option String)
    (hqe : hasQueryError req = false)
    (hb : req.body = some body)
    (hcode : extractField body.code req.query Query.code = .ok authCode)
    (huri : extractField body.redirectUri req.query Query.redirectUri = .ok redirectUri)
    (ht : truthy authCode = true) :
    (authenticate env cfg req).2.head? =
      some (Call.exchange authCode
        { grant_type := "authorization_code", redirect_uri := redirectUri }) ∧
    ∀ err, env.getOAuthAccessToken authCode
        { grant_type := "authorization_code", redirect_uri := redirectUri } = .error err →
      (authenticate env cfg req).1 = .fail (.err err) ∧
      (authenticate env cfg req).1.isError = false := by
  refine ⟨authenticate_trace_head env cfg req body authCode redirectUri hqe hb hcode huri ht, ?_⟩
  intro err hex
  rw [authenticate_exchange_error env cfg req body authCode redirectUri err hqe hb hcode huri ht hex]
  exact ⟨rfl, rfl⟩

/-- Witness for the exchange contract theorem at a failing exchange. -/
theorem authenticate_exchange_contract_witness :
    (authenticate envExchangeFail cfgDefault reqOk).2.head? =
      some (Call.exchange (some "authcode")
        { grant_type := "authorization_code", redirect_uri := some "https://app.example/cb" }) ∧
    (authenticate envExchangeFail cfgDefault reqOk).1 = .fail (.err (.external "invalid_grant")) := by
  have h := authenticate_exchange_contract envExchangeFail cfgDefault reqOk
    { code := some "authcode", redirectUri := some "https://app.example/cb" }
    (some "authcode") (some "https://app.example/cb") rfl rfl rfl rfl rfl
  exact ⟨h.1, (h.2 (.external "invalid_grant") rfl).1⟩

/-- The parse of the body `\x7b\x7d`: every field absent. -/
def emptyJson : Json :=
  { id := none, name := none, family_name := none, given_name := none, email := none }

/-- The profile the normalizer builds from `emptyJson`. -/
def emptyProfile : Profile :=
  { provider := "facebook", id := none, displayName := none,
    name := { familyName := none, givenName := none },
    emails := [{ value := none }], raw := "\x7b\x7d", json := emptyJson }

/-- An environment whose identity endpoint returns an empty JSON object. -/
def envEmptyProfile : Env :=
  { getOAuthAccessToken := fun _ _ => .ok ("tokA", "tokR", .undef)
    oauth2get := fun _ _ => .ok "\x7b\x7d"
    jsonParse := fun s => if s = "\x7b\x7d" then .ok emptyJson else .error (.parseError "Unexpected token")
    verify := fun _ _ _ _ => (none, .str "user", .undef) }

/-- C6 counterexample: for an identity-endpoint body of an empty JSON
object, the attempt passes a profile to verification whose id field is
absent. -/
theorem authenticate_profileId_absent_cx :
    Call.verifyCall "tokA" "tokR" (some emptyProfile) ∈
      (authenticate envEmptyProfile cfgDefault reqOk).2 ∧
    emptyProfile.provider = "facebook" ∧ emptyProfile.id = none := by
  refine ⟨?_, rfl, rfl⟩
  have h : (authenticate envEmptyProfile cfgDefault reqOk).2 =
      [Call.exchange (some "authcode")
         { grant_type := "authorization_code", redirect_uri := some "https://app.example/cb" },
       Call.fetch profileURL "tokA",
       Call.verifyCall "tokA" "tokR" (some emptyProfile)] := rfl
  rw [h]
  simp

/-- C6 (amended): for every attempt that passes a profile to verification
the profile's provider field is present (always `facebook`) and its id
field mirrors the parsed payload's id — possibly absent when the payload
omits it; and no attempt whose token exchange failed produces a profile
(the exchange call is then its only collaborator call). -/
theorem authenticate_profile_invariants (env : Env) (cfg : Config) (req : Request)
    (body : Body) (authCode redirectUri : Option String)
    (hqe : hasQueryError req = false)
    (hb : req.body = some body)
    (hcode : extractField body.code req.query Query.code = .ok authCode)
    (huri : extractField body.redirectUri req.query Query.redirectUri = .ok redirectUri)
    (ht : truthy authCode = true) :
    (∀ accessToken refreshToken meta prof cs,
        env.getOAuthAccessToken authCode
            { grant_type := "authorization_code", redirect_uri := redirectUri } =
          .ok (accessToken, refreshToken, meta) →
        loadUserProfile cfg env accessToken = (.ok (some prof), cs) →
        Call.verifyCall accessToken refreshToken (some prof) ∈ (authenticate env cfg req).2 ∧
        prof.provider = "facebook" ∧ prof.id = prof.json.id) ∧
    (∀ err, env.getOAuthAccessToken authCode
          { grant_type := "authorization_code", redirect_uri := redirectUri } = .error err →
        (authenticate env cfg req).2 =
          [Call.exchange authCode
             { grant_type := "authorization_code", redirect_uri := redirectUri }]) := by
  constructor
  · intro accessToken refreshToken meta prof cs hex hL
    have hshape := loadUserProfile_shape cfg env accessToken prof (by rw [hL])
    refine ⟨?_, hshape⟩
    rw [authenticate_verify env cfg req body authCode redirectUri accessToken refreshToken meta
      (some prof) cs hqe hb hcode huri ht hex hL]
    simp
  · intro err hex
    rw [authenticate_exchange_error env cfg req body authCode redirectUri err hqe hb hcode huri ht hex]

/-- Witness for the profile invariants theorem at the empty-payload
environment. -/
theorem authenticate_profile_invariants_witness :
    Call.verifyCall "tokA" "tokR" (some emptyProfile) ∈
      (authenticate envEmptyProfile cfgDefault reqOk).2 ∧
    emptyProfile.provider = "facebook" ∧ emptyProfile.id = emptyProfile.json.id := by
  have h := authenticate_profile_invariants envEmptyProfile cfgDefault reqOk
    { code := some "authcode", redirectUri := some "https://app.example/cb" }
    (some "authcode") (some "https://app.example/cb") rfl rfl rfl rfl rfl
  exact h.1 "tokA" "tokR" .undef emptyProfile [Call.fetch profileURL "tokA"] rfl rfl

/-- C8 counterexample: a request that passes the error-indicator and body
checks but has no query object and no code in the body throws instead of
failing. -/
theorem authenticate_extraction_throws_cx :
    (authenticate envInert cfgDefault reqNoQuery).1 =
      .thrown "TypeError: Cannot read property of undefined" ∧
    (authenticate envInert cfgDefault reqNoQuery).1.isFail = false := by
  constructor <;> rfl

/-- C8 (amended): for every request that passes the error-indicator and body
checks and whose query object exists, the authorization code is taken from
the body field when truthy and from the query field otherwise (the
redirect URI likewise), and when neither source provides a truthy code the
outcome is fail with no collaborator call. -/
theorem authenticate_extraction_preference (env : Env) (cfg : Config) (req : Request)
    (q : Query) (body : Body)
    (hq : req.query = some q)
    (hqe : hasQueryError req = false)
    (hb : req.body = some body) :
    (truthy (if truthy body.code then body.code else q.code) = true →
      (authenticate env cfg req).2.head? =
        some (Call.exchange (if truthy body.code then body.code else q.code)
          { grant_type := "authorization_code",
            redirect_uri := if truthy body.redirectUri then body.redirectUri else q.redirectUri })) ∧
    (truthy (if truthy body.code then body.code else q.code) = false →
      authenticate env cfg req = (.fail .undef, [])) := by
  have hcode : extractField body.code req.query Query.code =
      .ok (if truthy body.code then body.code else q.code) := by
    rw [hq]; exact extractField_some body.code q Query.code
  have huri : extractField body.redirectUri req.query Query.redirectUri =
      .ok (if truthy body.redirectUri then body.redirectUri else q.redirectUri) := by
    rw [hq]; exact extractField_some body.redirectUri q Query.redirectUri
  constructor
  · intro ht
    exact authenticate_trace_head env cfg req body _ _ hqe hb hcode huri ht
  · intro ht
    exact authenticate_no_code env cfg req body _ _ hqe hb hcode huri ht

/-- A request providing the code and redirect URI in the query only. -/
def reqQueryCode : Request :=
  { query := some { error := none, code := some "qcode", redirectUri := some "https://q.example/cb" }
    body := some { code := none, redirectUri := none } }

/-- Witness for the extraction preference theorem at a request whose code
comes from the query. -/
theorem authenticate_extraction_preference_witness :
    (authenticate envInert cfgDefault reqQueryCode).2.head? =
      some (Call.exchange (some "qcode")
        { grant_type := "authorization_code", redirect_uri := some "https://q.example/cb" }) := by
  have h := authenticate_extraction_preference envInert cfgDefault reqQueryCode
    { error := none, code := some "qcode", redirectUri := some "https://q.example/cb" }
    { code := none, redirectUri := none } rfl rfl rfl
  exact h.1 rfl

/-- A configuration skipping the profile with a plain true boolean. -/
def cfgSkipTrue : Config := { passReqToCallback := false, skipUserProfile := .flag true }

/-- C9: on a successful exchange with the skip setting deciding true — a
true boolean, a predicate of at most one argument returning true, or a
two-argument predicate completing with `(null, true)` — verification
receives an absent profile and no identity-endpoint fetch occurs. -/
theorem authenticate_skip_true (env : Env) (cfg : Config) (req : Request)
    (body : Body) (authCode redirectUri : Option String)
    (accessToken refreshToken : String) (meta : Val)
    (hqe : hasQueryError req = false)
    (hb : req.body = some body)
    (hcode : extractField body.code req.query Query.code = .ok authCode)
    (huri : extractField body.redirectUri req.query Query.redirectUri = .ok redirectUri)
    (ht : truthy authCode = true)
    (hex : env.getOAuthAccessToken authCode
        { grant_type := "authorization_code", redirect_uri := redirectUri } =
        .ok (accessToken, refreshToken, meta))
    (hskip : skipSaysTrue cfg.skipUserProfile accessToken) :
    Call.verifyCall accessToken refreshToken none ∈ (authenticate env cfg req).2 ∧
    (∀ url t, Call.fetch url t ∉ (authenticate env cfg req).2) ∧
    (authenticate env cfg req).1 =
      verified (env.verify (if cfg.passReqToCallback then some req else none)
        accessToken refreshToken none) := by
  obtain ⟨hok, hnof⟩ := loadUserProfile_skips cfg env accessToken hskip
  rcases hL : loadUserProfile cfg env accessToken with ⟨r, cs⟩
  rw [hL] at hok hnof
  have hr : r = .ok none := hok
  subst hr
  rw [authenticate_verify env cfg req body authCode redirectUri accessToken refreshToken meta
    none cs hqe hb hcode huri ht hex hL]
  refine ⟨by simp, ?_, rfl⟩
  intro url t
  simp only [List.mem_cons, List.mem_append, List.mem_singleton]
  rintro ((hc | hc) | (hc | hc))
  · exact Call.noConfusion hc
  · exact hnof url t hc
  · exact Call.noConfusion hc
  · exact List.not_mem_nil _ hc

/-- Witness for the skip-true theorem with a plain boolean skip setting. -/
theorem authenticate_skip_true_witness :
    Call.verifyCall "tokA" "tokR" none ∈
      (authenticate envSkipAsyncFail cfgSkipTrue reqOk).2 := by
  have h := authenticate_skip_true envSkipAsyncFail cfgSkipTrue reqOk
    { code := some "authcode", redirectUri := some "https://app.example/cb" }
    (some "authcode") (some "https://app.example/cb") "tokA" "tokR" .undef
    rfl rfl rfl rfl rfl rfl rfl
  exact h.1

end FacebookAuthCode
